import Mathlib

/-!
Shallow embedding of the locally-authored logic of the fmriprep-rodents
repository: the CompCor retry wrapper (`fprodents/interfaces/patches.py`),
the probability-map reordering helper and data-grabber/workflow guards
(`fmriprep_rodents/patch/workflows/anatomical.py`,
`fmriprep_rodents/patch/interfaces/__init__.py`, `fprodents/workflows/base.py`,
`fprodents/workflows/bold/base.py`), and the template-spec / entity-extraction
utilities (`fprodents/patch/utils/__init__.py`).  External library calls
(templateflow queries, niworkflows helpers, the random number generator) are
modelled as explicit function parameters ("oracles"); Python exceptions are
modelled with `Except` and explicit error kinds.
-/

/-! ## Retry wrapper: `RobustACompCor._run_interface` / `RobustTCompCor._run_interface`
(`fprodents/interfaces/patches.py`).

The wrapped decomposition is modelled by `att : Nat → Except Nat A`, where
`att k` is the outcome of the k-th invocation of the superclass
`_run_interface` (`Except.error e` standing for a raised `LinAlgError`,
with `e` identifying the particular exception object).  The value returned
by `random.randint` before retry number `f` is modelled by `slp f`. -/

/-- Lower bound of the sleep drawn before retry number `failures`:
`start + 4` with `start = (failures - 1) * 10`, from the source lines
`start = (failures - 1) * 10` and `sleep(randint(start + 4, start + 10))`. -/
def sleepLow (failures : Nat) : Nat := (failures - 1) * 10 + 4

/-- Upper bound of the sleep drawn before retry number `failures`:
`start + 10` with `start = (failures - 1) * 10`. -/
def sleepHigh (failures : Nat) : Nat := (failures - 1) * 10 + 10

/-- Contract of Python's `random.randint(a, b)`: it returns an integer `n`
with `a ≤ n ≤ b` — both endpoints included. -/
def randintCanReturn (a b n : Nat) : Prop := a ≤ n ∧ n ≤ b

instance (a b n : Nat) : Decidable (randintCanReturn a b n) := by
  unfold randintCanReturn; infer_instance

/-- The `while True` retry loop of `RobustACompCor._run_interface` (identical in
`RobustTCompCor._run_interface`), entered with `f` failures recorded so far
(so the next invocation of the superclass is `att f`; the initial call has
`f = 0`).  On an error, `failures` becomes `f + 1`; if that exceeds 10 the
current exception is re-raised, otherwise the loop sleeps `slp (f + 1)`
seconds and retries.  The result pairs the final outcome with the log of
`(failures, sleep-duration)` pairs, in order. -/
def robustGo {A : Type} (att : Nat → Except Nat A) (slp : Nat → Nat) (f : Nat) :
    Except Nat A × List (Nat × Nat) :=
  match att f with
  | .ok a => (.ok a, [])
  | .error e =>
    if h : f + 1 > 10 then (.error e, [])
    else
      let r := robustGo att slp (f + 1)
      (r.1, (f + 1, slp (f + 1)) :: r.2)
termination_by 10 - f
decreasing_by omega

/-- Entry point of the retry wrapper: the loop starts with `failures = 0`. -/
def robustRun {A : Type} (att : Nat → Except Nat A) (slp : Nat → Nat) :
    Except Nat A × List (Nat × Nat) :=
  robustGo att slp 0

/-! ## Probability-map reordering: `_probseg_fast2bids`
(`fmriprep_rodents/patch/workflows/anatomical.py`). -/

/-- The copy of `_probseg_fast2bids` under `src/`
(`fmriprep_rodents/patch/workflows/anatomical.py`):
`return (inlist[2], inlist[1], inlist[0])`.  Python indexing raises
`IndexError` on a too-short list, modelled by `none`. -/
def probseg_fast2bids {A : Type} (inlist : List A) : Option (A × A × A) :=
  match inlist.get? 2, inlist.get? 1, inlist.get? 0 with
  | some x, some y, some z => some (x, y, z)
  | _, _, _ => none

/-- Modelled from the spec: the second copy of `_probseg_fast2bids`, which
lives in a file of this repository not present under `src/`
(`fprodents/patch/workflows/anatomical.py`), described by the spec as
returning `(inlist[1], inlist[2], inlist[0])`. -/
def probseg_fast2bids_alt {A : Type} (inlist : List A) : Option (A × A × A) :=
  match inlist.get? 1, inlist.get? 2, inlist.get? 0 with
  | some x, some y, some z => some (x, y, z)
  | _, _, _ => none

/-! ## Template-spec parsing: `get_template_specs`
(`fprodents/patch/utils/__init__.py`).

Python dictionaries with string keys are modelled as insertion-ordered
association lists with unique keys; the external `templateflow.api.get`
query is an oracle returning a `TFRes`. -/

/-- Values stored in a template-spec dictionary: Python `None`, a string, or
an integer. -/
inductive SpecVal : Type
  | none
  | str (s : String)
  | nat (n : Nat)
deriving DecidableEq

/-- Dictionary lookup: `d[k]` / `d.get(k)`. -/
def dget {B : Type} (d : List (String × B)) (k : String) : Option B :=
  (d.find? (fun p => p.1 == k)).map (fun p => p.2)

/-- Dictionary assignment `d[k] = v`: replaces in place if the key exists,
appends otherwise (Python dicts keep insertion order). -/
def dset {B : Type} (d : List (String × B)) (k : String) (v : B) :
    List (String × B) :=
  if d.any (fun p => p.1 == k) then
    d.map (fun p => if p.1 == k then (k, v) else p)
  else d ++ [(k, v)]

/-- Dictionary removal, as performed by `d.pop(k, default)`. -/
def dpop {B : Type} (d : List (String × B)) (k : String) : List (String × B) :=
  d.filter (fun p => p.1 != k)

/-- Result of the external `templateflow.api.get(..., raise_empty=True)`
query: a unique path, a list of paths, or a raised exception (when nothing
matches, `raise_empty=True` raises inside the external library). -/
inductive TFRes : Type
  | one (path : String)
  | many (paths : List String)
  | raised
deriving DecidableEq

/-- Errors surfacing from `get_template_specs`: the locally raised
`RuntimeError` (non-unique match) or an exception propagated from the
external query. -/
inductive TplErr : Type
  | runtimeError
  | external
deriving DecidableEq

/-- Python `template_spec or {}`: an absent (`None`) dictionary becomes empty. -/
def pyOrEmpty (d : Option (List (String × SpecVal))) : List (String × SpecVal) :=
  match d with
  | some l => l
  | none => []

/-- The in-place massaging of `template_spec` performed by
`get_template_specs` before querying:
`template_spec["desc"] = template_spec.get("desc", None)`,
`template_spec["atlas"] = template_spec.get("atlas", None)`,
`template_spec["resolution"] = template_spec.pop("res",
template_spec.get("resolution", default_resolution))`. -/
def massageSpec (d : List (String × SpecVal)) (default_resolution : SpecVal) :
    List (String × SpecVal) :=
  let d1 := dset d "desc" ((dget d "desc").getD SpecVal.none)
  let d2 := dset d1 "atlas" ((dget d1 "atlas").getD SpecVal.none)
  let resv := (dget d2 "res").getD ((dget d2 "resolution").getD default_resolution)
  dset (dpop d2 "res") "resolution" resv

/-- The `common_spec` dictionary built by `get_template_specs`:
`{"resolution": template_spec["resolution"]}` plus `"cohort"` when present. -/
def commonSpec (m : List (String × SpecVal)) : List (String × SpecVal) :=
  let base := [("resolution", (dget m "resolution").getD SpecVal.none)]
  match dget m "cohort" with
  | some v => base ++ [("cohort", v)]
  | none => base

/-- `get_template_specs(in_template, template_spec=None, default_resolution=None)`
from `fprodents/patch/utils/__init__.py`, with the external
`templateflow.api.get` passed as the oracle `g`.  Note the source default of
`default_resolution` is Python `None`, i.e. `SpecVal.none`. -/
def get_template_specs (g : String → List (String × SpecVal) → TFRes)
    (in_template : String) (template_spec : Option (List (String × SpecVal)))
    (default_resolution : SpecVal) :
    Except TplErr (String × List (String × SpecVal)) :=
  let spec := massageSpec (pyOrEmpty template_spec) default_resolution
  match g in_template spec with
  | .raised => .error .external
  | .many _ => .error .runtimeError
  | .one p => .ok (p, commonSpec spec)

/-! ## BIDS entity extraction: `extract_entities`
(`fprodents/patch/utils/__init__.py`).

The external `bids.layout.parse_file_entities` is modelled by an oracle
`parse` mapping a file to its ordered list of (entity, value) pairs; values
of a given entity live in a linearly ordered type so that Python's
`sorted(set(...))` is meaningful. -/

/-- The list of values accumulated for entity `k` by the
`entities = defaultdict(list)` loop of `extract_entities`: for each file in
order, each parsed `(e, v)` pair with `e = k` appends `v`. -/
def entityValues {F V : Type} (parse : F → List (String × V)) (files : List F)
    (k : String) : List V :=
  (((files.map parse).flatten).filter (fun p => p.1 == k)).map (fun p => p.2)

/-- Python `sorted(set(inlist))`: the distinct values of `inlist`, in
ascending order. -/
def sortedDistinct {V : Type} [LinearOrder V] [DecidableEq V] (l : List V) :
    List V :=
  List.insertionSort (fun a b => a ≤ b) l.dedup

/-- The inner helper `_unique` of `extract_entities`:
`inlist = sorted(set(inlist)); return inlist[0] if len(inlist) == 1 else inlist`. -/
def pyUnique {V : Type} [LinearOrder V] [DecidableEq V] (l : List V) :
    V ⊕ List V :=
  if h : (sortedDistinct l).length = 1 then
    Sum.inl ((sortedDistinct l).get ⟨0, by omega⟩)
  else Sum.inr (sortedDistinct l)

/-- `extract_entities(file_list)` viewed as the mapping it returns: entity
`k` is present (`some`) exactly when some file contributed a value for it,
and is then sent through `_unique`. -/
def extract_entities {F V : Type} [LinearOrder V] [DecidableEq V]
    (parse : F → List (String × V)) (files : List F) :
    String → Option (V ⊕ List V) :=
  fun k =>
    if entityValues parse files k = [] then none
    else some (pyUnique (entityValues parse files k))

/-! ## Echo-count guard of `init_func_preproc_wf`
(`fprodents/workflows/bold/base.py`). -/

/-- Error kinds raised by the workflow builders modelled here. -/
inductive WfErr : Type
  | runtimeError (msg : String)
  | notImplementedError
  | valueError (msg : String)
deriving DecidableEq

/-- Discriminates the error classes named by the spec's "not implemented" /
"value" wording. -/
def isNotImplementedOrValueError : WfErr → Bool
  | .notImplementedError => true
  | .valueError _ => true
  | .runtimeError _ => false

/-- `listify(entities.get("echo", []))`: a missing entity gives `[]`, a
scalar is wrapped into a one-element list, a list stays itself. -/
def listifyEntity {V : Type} (e : Option (V ⊕ List V)) : List V :=
  match e with
  | Option.none => []
  | some (Sum.inl v) => [v]
  | some (Sum.inr l) => l

/-- The echo handling at the top of `init_func_preproc_wf`:
`echo_idxs = listify(entities.get("echo", []))`,
`multiecho = len(echo_idxs) > 2`, a raise of
`RuntimeError("Multi-echo processing requires at least three different echos "
"(found two).")` when exactly two echo indices are present (the
one-echo branch only logs a warning), and otherwise the builder proceeds
with the `multiecho` flag. -/
def echoGate {V : Type} (e : Option (V ⊕ List V)) : Except WfErr Bool :=
  let echo_idxs := listifyEntity e
  let multiecho : Bool := decide (echo_idxs.length > 2)
  if echo_idxs.length = 2 then
    .error (.runtimeError
      "Multi-echo processing requires at least three different echos (found two).")
  else .ok multiecho

/-! ## Data-grabber and subject-level guards: `BIDSDataGrabber._run_interface`
(`fmriprep_rodents/patch/interfaces/__init__.py`) and
`init_single_subject_wf` (`fprodents/workflows/base.py`). -/

/-- The per-subject image lists held by `subject_data` (the `bids_dict` of
`BIDSDataGrabber._run_interface`), as produced by `collect_data`. -/
structure SubjectData : Type where
  t2w : List String
  bold : List String
  t1w : List String
  flair : List String
  fmap : List String
  sbref : List String
  roi : List String
deriving DecidableEq

/-- Values stored in the interface's `_results` dictionary. -/
inductive RVal : Type
  | dict (sd : SubjectData)
  | files (fs : List String)
deriving DecidableEq

/-- Error kinds raised by the grabber and the subject-level builder. -/
inductive RunErr : Type
  | fileNotFoundError (msg : String)
  | runtimeError (msg : String)
deriving DecidableEq

/-- Tests whether an error is a `FileNotFoundError`. -/
def isFileNotFound : RunErr → Bool
  | .fileNotFoundError _ => true
  | .runtimeError _ => false

/-- The entries added to `_results` by `self._results.update(bids_dict)`. -/
def subjectEntries (sd : SubjectData) : List (String × RVal) :=
  [("t2w", .files sd.t2w), ("bold", .files sd.bold), ("t1w", .files sd.t1w),
   ("flair", .files sd.flair), ("fmap", .files sd.fmap),
   ("sbref", .files sd.sbref), ("roi", .files sd.roi)]

/-- `BIDSDataGrabber._run_interface`: first stores `out_dict` and all
subject-data entries into `_results`, then raises `FileNotFoundError` if the
`t2w` list is empty, then raises `FileNotFoundError` if functional images
are required and the `bold` list is empty (the trailing loop only logs
missing optional image types).  The returned pair is the final `_results`
state together with the outcome. -/
def grabberRun (sd : SubjectData) (require_funcs : Bool) (subject_id : String) :
    List (String × RVal) × Except RunErr Unit :=
  let results := ("out_dict", RVal.dict sd) :: subjectEntries sd
  if sd.t2w = [] then
    (results, .error (.fileNotFoundError
      ("No T2w images found for subject sub-" ++ subject_id)))
  else if require_funcs = true ∧ sd.bold = [] then
    (results, .error (.fileNotFoundError
      ("No functional images found for subject sub-" ++ subject_id)))
  else (results, .ok ())

/-- Python `task_id or 'all'` in the f-string of `init_single_subject_wf`:
`None` and the empty string are falsy. -/
def taskOrAll (task_id : Option String) : String :=
  match task_id with
  | some t => if t = "" then "all" else t
  | Option.none => "all"

/-- The fail-fast check of `init_single_subject_wf`: when `anat_only` is
false and the subject has no BOLD images, raise
`RuntimeError(f"No BOLD images found for participant <...> and task <...>. "
"All workflows require BOLD images.")`. -/
def subjectBoldGate (anat_only : Bool) (bold : List String)
    (subject_id : String) (task_id : Option String) : Except RunErr Unit :=
  if anat_only = false ∧ bold = [] then
    .error (.runtimeError
      ("No BOLD images found for participant <" ++ subject_id ++
       "> and task <" ++ taskOrAll task_id ++ ">. All workflows require BOLD images."))
  else .ok ()

/-! ## Registration argument assembly: `RobustMNINormalization._get_ants_args`
(`fmriprep_rodents/patch/interfaces/__init__.py`).

Undefined nipype traits (`isdefined(...)` false) are modelled by `none`
fields.  The helpers `mask` and `create_cfm`, the niworkflows
`get_template_specs`, the `templateflow.api.get` mask query and
`os.path.isfile` are external and appear as oracle fields of `NormExt`. -/

/-- The `flavor` input trait (`Enum("precise", "testing", "fast")`). -/
inductive Flavor : Type
  | precise
  | fast
  | testing
deriving DecidableEq

/-- Values stored in the keyword-argument dictionary assembled by
`_get_ants_args`. -/
inductive AVal : Type
  | str (s : String)
  | nat (n : Nat)
  | bool (b : Bool)
deriving DecidableEq

/-- Inputs of `RobustMNINormalization` consulted by `_get_ants_args`. -/
structure NormInputs : Type where
  moving_image : String
  num_threads : Nat
  float : Bool
  initial_moving_transform : String
  moving_mask : Option String
  explicit_masking : Bool
  lesion_mask : Option String
  reference_image : Option String
  reference_mask : Option String
  orientation : String
  template_spec : Option (List (String × SpecVal))
  template_resolution : Option Nat
  reference : String
  template : String
  flavor : Flavor

/-- External collaborators of `_get_ants_args`: `mask(image, mask, out)`,
`create_cfm(in_file, lesion_mask, global_mask)`, the niworkflows
`get_template_specs(template, template_spec, default_resolution)` (which may
itself raise, modelled by `Except.error`), `templateflow.api.get` for the
brain-mask query, and `os.path.isfile`. -/
structure NormExt : Type where
  mask : String → String → String → String
  create_cfm : String → Option String → Bool → String
  get_template_specs : String → List (String × SpecVal) → Option Nat →
    Except Unit (String × List (String × SpecVal))
  tf_get : String → List (String × SpecVal) → String
  isfile : String → Bool

/-- Errors raised by `_get_ants_args`: the `NotImplementedError` for the
"LAS" orientation, the `ValueError` for a non-existing reference path, or an
exception propagated from an external call. -/
inductive NormErr : Type
  | notImplementedError
  | valueError (msg : String)
  | external
deriving DecidableEq

/-- The moving-image handling of `_get_ants_args` (its first decision
table), applied to the initial `args` dictionary. -/
def antsMovingArgs (ext : NormExt) (inp : NormInputs)
    (args : List (String × AVal)) : List (String × AVal) :=
  match inp.moving_mask with
  | some mm =>
    let a :=
      if inp.explicit_masking then
        dset args "moving_image"
          (.str (ext.mask inp.moving_image mm "moving_masked.nii.gz"))
      else
        dset args "moving_image_masks" (.str mm)
    match inp.lesion_mask with
    | some lm =>
      dset a "moving_image_masks"
        (.str (ext.create_cfm mm (some lm) inp.explicit_masking))
    | Option.none => a
  | Option.none =>
    match inp.lesion_mask with
    | some lm =>
      dset args "moving_image_masks"
        (.str (ext.create_cfm inp.moving_image (some lm) true))
    | Option.none => args

/-- The fixed-image handling of `_get_ants_args` when a reference image is
provided (its second decision table). -/
def antsFixedWithReference (ext : NormExt) (inp : NormInputs) (ri : String)
    (args : List (String × AVal)) : List (String × AVal) :=
  let a := dset args "fixed_image" (.str ri)
  match inp.reference_mask with
  | some rm =>
    if inp.explicit_masking then
      let a1 := dset a "fixed_image" (.str (ext.mask ri rm "fixed_masked.nii.gz"))
      match inp.lesion_mask with
      | some _ => dset a1 "fixed_image_masks" (.str (ext.create_cfm rm Option.none true))
      | Option.none => a1
    else dset a "fixed_image_masks" (.str rm)
  | Option.none =>
    match inp.lesion_mask with
    | some _ => dset a "fixed_image_masks" (.str (ext.create_cfm ri Option.none true))
    | Option.none => a

/-- The fallback branch of `_get_ants_args` when no reference image is
provided: raise `NotImplementedError` for orientation "LAS"; otherwise
massage the template spec, resolve the default resolution from `flavor`
(overridden to `None` for the resolution-less `Fischer344` template), call
the niworkflows `get_template_specs`, check the resulting path exists
(`ValueError` otherwise), fetch the template brain mask, and fill
`fixed_image` / `fixed_image_masks` (the latter removed again, and possibly
replaced by a cost-function mask, under explicit masking). -/
def antsFixedFromTemplate (ext : NormExt) (inp : NormInputs)
    (args : List (String × AVal)) : Except NormErr (List (String × AVal)) :=
  if inp.orientation = "LAS" then .error .notImplementedError
  else
    let tspec0 := pyOrEmpty inp.template_spec
    let default_res : Option Nat :=
      match inp.flavor with
      | .precise => some 1
      | .fast => some 2
      | .testing => some 2
    let tspec1 :=
      match inp.template_resolution with
      | some r => dset tspec0 "res" (.nat r)
      | Option.none => tspec0
    let tspec2 := dset (dset tspec1 "suffix" (.str inp.reference)) "desc" SpecVal.none
    let default_res := if inp.template = "Fischer344" then Option.none else default_res
    match ext.get_template_specs inp.template tspec2 default_res with
    | .error _ => .error .external
    | .ok (ref_template, tspec3) =>
      let tspec4 := dset (dset tspec3 "atlas" SpecVal.none) "hemi" SpecVal.none
      if ext.isfile ref_template = false then
        .error (.valueError
          ("The registration reference must be an existing file, but path \"" ++
           ref_template ++ "\" cannot be found."))
      else
        let ref_mask :=
          ext.tf_get inp.template
            (dset (dset tspec4 "desc" (.str "brain")) "suffix" (.str "mask"))
        let a1 := dset args "fixed_image" (.str ref_template)
        let a2 := dset a1 "fixed_image_masks" (.str ref_mask)
        if inp.explicit_masking then
          let a3 := dset a2 "fixed_image"
            (.str (ext.mask ref_template ref_mask "fixed_masked.nii.gz"))
          let a4 := dpop a3 "fixed_image_masks"
          match inp.lesion_mask with
          | some _ =>
            .ok (dset a4 "fixed_image_masks" (.str (ext.create_cfm ref_mask Option.none true)))
          | Option.none => .ok a4
        else .ok a2

/-- `RobustMNINormalization._get_ants_args`: the initial keyword arguments,
then the moving-image handling, then either the explicit-reference or the
template fallback handling of the fixed image. -/
def getAntsArgs (ext : NormExt) (inp : NormInputs) :
    Except NormErr (List (String × AVal)) :=
  let args0 : List (String × AVal) :=
    [("moving_image", .str inp.moving_image),
     ("num_threads", .nat inp.num_threads),
     ("float", .bool inp.float),
     ("terminal_output", .str "file"),
     ("write_composite_transform", .bool true),
     ("initial_moving_transform", .str inp.initial_moving_transform)]
  let args1 := antsMovingArgs ext inp args0
  match inp.reference_image with
  | some ri => .ok (antsFixedWithReference ext inp ri args1)
  | Option.none => antsFixedFromTemplate ext inp args1

/-! ## Concrete instances used to exercise the definitions above. -/

/-- A wrapped decomposition that fails (raises `LinAlgError`) on every
invocation; the payload identifies the invocation. -/
def attAllFail : Nat → Except Nat Nat := fun k => .error k

/-- A jitter draw sitting at the lower endpoint of each sleep interval. -/
def slpLowEnd : Nat → Nat := fun fl => (fl - 1) * 10 + 4

/-- A wrapped decomposition that fails on its first invocation and succeeds
on the second. -/
def attFailOnce : Nat → Except Nat Nat :=
  fun k => if k = 0 then .error 0 else .ok 0

/-- A jitter draw sitting at the upper endpoint `start + 10` of the first
sleep interval (a value `random.randint(4, 10)` can return). -/
def slpTopEnd : Nat → Nat := fun _ => 10

/-- A template query oracle that always finds a unique template. -/
def tfAlwaysOne : String → List (String × SpecVal) → TFRes :=
  fun _ _ => TFRes.one "tpl"

/-- A template query oracle modelling the `{'res': '1|2', 'suffix': 'T1w'}`
scenario: a resolution modifier of `"1|2"` matches two templates, anything
else matches one. -/
def tfResPipe : String → List (String × SpecVal) → TFRes :=
  fun _ s =>
    match dget s "resolution" with
    | some (SpecVal.str r) => if r = "1|2" then TFRes.many ["p1", "p2"] else TFRes.one "p"
    | _ => TFRes.one "p"

/-- A parsed-entities oracle for two same-subject files differing in `run`. -/
def parseTwoRuns : String → List (String × Nat) :=
  fun f => if f = "f1" then [("subject", 1), ("run", 1)] else [("subject", 1), ("run", 2)]

/-- The two files fed to `extract_entities` in the concrete scenario. -/
def filesTwoRuns : List String := ["f1", "f2"]

/-- A subject with no T2w images. -/
def sdNoT2w : SubjectData :=
  { t2w := [], bold := ["b.nii"], t1w := [], flair := [], fmap := [],
    sbref := [], roi := [] }

/-- A subject with a T2w image but no BOLD images. -/
def sdNoBold : SubjectData :=
  { t2w := ["t.nii"], bold := [], t1w := [], flair := [], fmap := [],
    sbref := [], roi := [] }

/-- Concrete external collaborators for `_get_ants_args`. -/
def extSimple : NormExt :=
  { mask := fun _ _ o => o,
    create_cfm := fun i _ _ => i,
    get_template_specs := fun _ s _ => .ok ("tpl", s),
    tf_get := fun _ _ => "tplmask",
    isfile := fun _ => true }

/-- Inputs with orientation "LAS" *and* a reference image provided. -/
def inpLASWithRef : NormInputs :=
  { moving_image := "mov.nii", num_threads := 1, float := false,
    initial_moving_transform := "itk.txt", moving_mask := Option.none,
    explicit_masking := false, lesion_mask := Option.none,
    reference_image := some "ref.nii", reference_mask := Option.none,
    orientation := "LAS", template_spec := Option.none,
    template_resolution := Option.none, reference := "T2w",
    template := "Fischer344", flavor := Flavor.precise }

/-- Inputs with orientation "LAS" and no reference image. -/
def inpLASNoRef : NormInputs :=
  { moving_image := "mov.nii", num_threads := 1, float := false,
    initial_moving_transform := "itk.txt", moving_mask := Option.none,
    explicit_masking := false, lesion_mask := Option.none,
    reference_image := Option.none, reference_mask := Option.none,
    orientation := "LAS", template_spec := Option.none,
    template_resolution := Option.none, reference := "T2w",
    template := "Fischer344", flavor := Flavor.precise }

/-! ## Theorems. -/

/-- C6: the two copies of `_probseg_fast2bids` in the repository (the one
under `src/` and the spec-modelled second copy) compute different,
non-inverse reorderings of the same 3-tuple: on `[0, 1, 2]` one returns
`(2, 1, 0)` and the other `(1, 2, 0)`, the two results differ, and composing
the two copies (in either order) does not restore the original triple. -/
theorem claim_C6_two_probseg_copies_differ :
    probseg_fast2bids [0, 1, 2] = some (2, 1, 0) ∧
    probseg_fast2bids_alt [0, 1, 2] = some (1, 2, 0) ∧
    probseg_fast2bids [0, 1, 2] ≠ probseg_fast2bids_alt [0, 1, 2] ∧
    probseg_fast2bids_alt [2, 1, 0] ≠ some (0, 1, 2) ∧
    probseg_fast2bids [1, 2, 0] ≠ some (0, 1, 2) := by
  decide

/-- C7: the `_probseg_fast2bids` of
`fmriprep_rodents/patch/workflows/anatomical.py` sends every 3-element list
to the fixed permutation `(inlist[2], inlist[1], inlist[0])` — the reversal,
mapping a FAST-ordered (CSF, WM, GM) triple to the BIDS order
(GM, WM, CSF) — and applying it twice restores the original triple. -/
theorem claim_C7_probseg_reversal {A : Type} (a b c : A) :
    probseg_fast2bids [a, b, c] = some (c, b, a) ∧
    probseg_fast2bids [c, b, a] = some (a, b, c) :=
  ⟨rfl, rfl⟩

/-- Concrete instance of C7 at the triple `(0, 1, 2)`. -/
theorem claim_C7_probseg_reversal_witness :
    probseg_fast2bids [0, 1, 2] = some ((2 : Nat), 1, 0) ∧
    probseg_fast2bids [2, 1, 0] = some ((0 : Nat), 1, 2) :=
  claim_C7_probseg_reversal 0 1 2

/-- C5 (counterexample): with exactly two echo indices,
`init_func_preproc_wf` raises a `RuntimeError` — which is neither a
`NotImplementedError` nor a `ValueError`, contradicting the claim's error
classes. -/
theorem claim_C5_cex :
    echoGate (some (Sum.inr ([1, 2] : List Nat))) =
      .error (.runtimeError
        "Multi-echo processing requires at least three different echos (found two).") ∧
    isNotImplementedOrValueError
      (.runtimeError
        "Multi-echo processing requires at least three different echos (found two).") =
      false :=
  ⟨rfl, rfl⟩

/-- C5 (amended): for every BOLD input whose extracted entities contain
exactly two distinct echo indices, `init_func_preproc_wf` raises an explicit
`RuntimeError` rather than silently degrading, and with three or more echoes
it proceeds in multi-echo mode. -/
theorem claim_C5_two_echoes_raise (e : Option (Nat ⊕ List Nat)) :
    ((listifyEntity e).length = 2 →
      echoGate e = .error (.runtimeError
        "Multi-echo processing requires at least three different echos (found two).")) ∧
    (3 ≤ (listifyEntity e).length → echoGate e = .ok true) := by
  constructor
  · intro h
    simp only [echoGate]
    rw [if_pos h]
  · intro h
    simp only [echoGate]
    rw [if_neg (by omega)]
    have h2 : (listifyEntity e).length > 2 := by omega
    simp [h2]

/-- Concrete instance of C5: two echoes raise, three proceed in multi-echo
mode. -/
theorem claim_C5_two_echoes_raise_witness :
    echoGate (some (Sum.inr ([9, 9] : List Nat))) =
      .error (.runtimeError
        "Multi-echo processing requires at least three different echos (found two).") ∧
    echoGate (some (Sum.inr ([3, 1, 2] : List Nat))) = .ok true :=
  ⟨(claim_C5_two_echoes_raise (some (Sum.inr [9, 9]))).1 (by decide),
   (claim_C5_two_echoes_raise (some (Sum.inr [3, 1, 2]))).2 (by decide)⟩

/-- C4 (counterexample): when functional processing is requested and the
subject has no BOLD images, `init_single_subject_wf` raises a
`RuntimeError`, not a `FileNotFoundError`. -/
theorem claim_C4_cex :
    subjectBoldGate false [] "01" Option.none =
      .error (.runtimeError
        "No BOLD images found for participant <01> and task <all>. All workflows require BOLD images.") ∧
    isFileNotFound
      (.runtimeError
        "No BOLD images found for participant <01> and task <all>. All workflows require BOLD images.") =
      false :=
  ⟨rfl, rfl⟩

/-- C4 (amended): missing required image types fail fast —
`BIDSDataGrabber._run_interface` raises `FileNotFoundError` whenever the
subject data's `t2w` list is empty, and whenever functional images are
required and the `bold` list is empty; likewise `init_single_subject_wf`
raises a descriptive `RuntimeError` when functional processing is requested
(not `anat_only`) but the subject has no BOLD images. -/
theorem claim_C4_missing_images_fail_fast (sd : SubjectData) (rf : Bool)
    (sid : String) (bold : List String) (sid2 : String) (tid : Option String) :
    (sd.t2w = [] →
      (grabberRun sd rf sid).2 =
        .error (.fileNotFoundError ("No T2w images found for subject sub-" ++ sid))) ∧
    (sd.t2w ≠ [] → rf = true → sd.bold = [] →
      (grabberRun sd rf sid).2 =
        .error (.fileNotFoundError ("No functional images found for subject sub-" ++ sid))) ∧
    (bold = [] →
      subjectBoldGate false bold sid2 tid =
        .error (.runtimeError
          ("No BOLD images found for participant <" ++ sid2 ++ "> and task <" ++
           taskOrAll tid ++ ">. All workflows require BOLD images."))) := by
  refine ⟨?_, ?_, ?_⟩
  · intro h
    simp [grabberRun, h]
  · intro h1 h2 h3
    simp [grabberRun, h1, h2, h3]
  · intro h
    simp [subjectBoldGate, h]

/-- Concrete instance of C4: all three fail-fast raises at concrete
subjects. -/
theorem claim_C4_missing_images_fail_fast_witness :
    (grabberRun sdNoT2w false "01").2 =
      .error (.fileNotFoundError ("No T2w images found for subject sub-" ++ "01")) ∧
    (grabberRun sdNoBold true "01").2 =
      .error (.fileNotFoundError ("No functional images found for subject sub-" ++ "01")) ∧
    subjectBoldGate false [] "02" (some "rest") =
      .error (.runtimeError
        ("No BOLD images found for participant <" ++ "02" ++ "> and task <" ++
         taskOrAll (some "rest") ++ ">. All workflows require BOLD images.")) :=
  ⟨(claim_C4_missing_images_fail_fast sdNoT2w false "01" [] "02" (some "rest")).1 rfl,
   (claim_C4_missing_images_fail_fast sdNoBold true "01" [] "02" (some "rest")).2.1
     (by decide) rfl rfl,
   (claim_C4_missing_images_fail_fast sdNoBold true "01" [] "02" (some "rest")).2.2 rfl⟩

/-- C10: whenever `BIDSDataGrabber._run_interface` raises, its `_results`
dictionary has already been populated with `out_dict` and the full
subject-data mapping — the failure is not atomic. -/
theorem claim_C10_results_populated_before_raise (sd : SubjectData) (rf : Bool)
    (sid : String) (e : RunErr)
    (_h : (grabberRun sd rf sid).2 = .error e) :
    (grabberRun sd rf sid).1 = ("out_dict", RVal.dict sd) :: subjectEntries sd := by
  unfold grabberRun
  split
  · rfl
  · split <;> rfl

/-- Concrete instance of C10 at a subject with no T2w images. -/
theorem claim_C10_results_populated_before_raise_witness :
    (grabberRun sdNoT2w false "01").1 =
      ("out_dict", RVal.dict sdNoT2w) :: subjectEntries sdNoT2w :=
  claim_C10_results_populated_before_raise sdNoT2w false "01"
    (.fileNotFoundError ("No T2w images found for subject sub-" ++ "01")) rfl

/-- C3 (evaluation at the failing input): calling
`get_template_specs('MNI152NLin2009cAsym', {'suffix': 'T1w'})` with
`default_resolution` left at its source default (Python `None`) yields the
common spec `{'resolution': None}` — not the `{'resolution': 1}` promised by
the function's own doctest — whenever the external query finds a unique
template. -/
theorem claim_C3_no_default_resolution
    (g : String → List (String × SpecVal) → TFRes) (p : String)
    (h : g "MNI152NLin2009cAsym"
        (massageSpec [("suffix", SpecVal.str "T1w")] SpecVal.none) = TFRes.one p) :
    get_template_specs g "MNI152NLin2009cAsym"
        (some [("suffix", SpecVal.str "T1w")]) SpecVal.none =
      .ok (p, [("resolution", SpecVal.none)]) ∧
    ([("resolution", SpecVal.none)] : List (String × SpecVal)) ≠
      [("resolution", SpecVal.nat 1)] := by
  constructor
  · simp only [get_template_specs, pyOrEmpty]
    rw [h]
    rfl
  · decide

/-- Concrete instance of C3, with an oracle that finds a unique template. -/
theorem claim_C3_no_default_resolution_witness :
    get_template_specs tfAlwaysOne "MNI152NLin2009cAsym"
        (some [("suffix", SpecVal.str "T1w")]) SpecVal.none =
      .ok ("tpl", [("resolution", SpecVal.none)]) ∧
    ([("resolution", SpecVal.none)] : List (String × SpecVal)) ≠
      [("resolution", SpecVal.nat 1)] :=
  claim_C3_no_default_resolution tfAlwaysOne "tpl" rfl

/-- C8: `get_template_specs` raises `RuntimeError` exactly when the external
template query returns a list (more than one match), and on a unique match
returns the template path and the common spec without raising. -/
theorem claim_C8_runtime_error_iff_many
    (g : String → List (String × SpecVal) → TFRes) (tmpl : String)
    (spec : Option (List (String × SpecVal))) (defres : SpecVal) :
    (∀ ps, g tmpl (massageSpec (pyOrEmpty spec) defres) = TFRes.many ps →
      get_template_specs g tmpl spec defres = .error TplErr.runtimeError) ∧
    (∀ p, g tmpl (massageSpec (pyOrEmpty spec) defres) = TFRes.one p →
      get_template_specs g tmpl spec defres =
        .ok (p, commonSpec (massageSpec (pyOrEmpty spec) defres))) ∧
    (get_template_specs g tmpl spec defres = .error TplErr.runtimeError →
      ∃ ps, g tmpl (massageSpec (pyOrEmpty spec) defres) = TFRes.many ps) := by
  refine ⟨?_, ?_, ?_⟩
  · intro ps h
    simp only [get_template_specs]
    rw [h]
  · intro p h
    simp only [get_template_specs]
    rw [h]
  · cases hg : g tmpl (massageSpec (pyOrEmpty spec) defres) with
    | one p =>
      intro h
      simp only [get_template_specs] at h
      rw [hg] at h
      simp at h
    | many ps => exact fun _ => ⟨ps, rfl⟩
    | raised =>
      intro h
      simp only [get_template_specs] at h
      rw [hg] at h
      simp at h

/-- Concrete instance of C8: the `{'res': '1|2', 'suffix': 'T1w'}` spec
raises because two templates match, while `{'suffix': 'T1w'}` returns the
unique path and common spec. -/
theorem claim_C8_runtime_error_iff_many_witness :
    get_template_specs tfResPipe "MNI152NLin2009cAsym"
        (some [("res", SpecVal.str "1|2"), ("suffix", SpecVal.str "T1w")]) SpecVal.none =
      .error TplErr.runtimeError ∧
    get_template_specs tfResPipe "MNI152NLin2009cAsym"
        (some [("suffix", SpecVal.str "T1w")]) SpecVal.none =
      .ok ("p", commonSpec (massageSpec
        (pyOrEmpty (some [("suffix", SpecVal.str "T1w")])) SpecVal.none)) :=
  ⟨(claim_C8_runtime_error_iff_many tfResPipe "MNI152NLin2009cAsym"
      (some [("res", SpecVal.str "1|2"), ("suffix", SpecVal.str "T1w")])
      SpecVal.none).1 ["p1", "p2"] rfl,
   (claim_C8_runtime_error_iff_many tfResPipe "MNI152NLin2009cAsym"
      (some [("suffix", SpecVal.str "T1w")]) SpecVal.none).2.1 "p" rfl⟩

/-- C2 (counterexample): with orientation "LAS" *and* a reference image
provided, `_get_ants_args` does not raise — it returns an argument mapping,
because the orientation check sits in the no-reference-image branch only. -/
theorem claim_C2_cex :
    inpLASWithRef.orientation = "LAS" ∧
    getAntsArgs extSimple inpLASWithRef =
      .ok [("moving_image", AVal.str "mov.nii"), ("num_threads", AVal.nat 1),
           ("float", AVal.bool false), ("terminal_output", AVal.str "file"),
           ("write_composite_transform", AVal.bool true),
           ("initial_moving_transform", AVal.str "itk.txt"),
           ("fixed_image", AVal.str "ref.nii")] :=
  ⟨rfl, rfl⟩

/-- C2 (amended): when no reference image is provided,
`RobustMNINormalization._get_ants_args` raises `NotImplementedError` for
orientation "LAS" regardless of the remaining inputs; with a reference image
the orientation is never checked. -/
theorem claim_C2_las_raises_without_reference (ext : NormExt) (inp : NormInputs)
    (href : inp.reference_image = Option.none) (hlas : inp.orientation = "LAS") :
    getAntsArgs ext inp = .error NormErr.notImplementedError := by
  simp [getAntsArgs, antsFixedFromTemplate, href, hlas]

/-- Concrete instance of C2 at inputs with no reference image and
orientation "LAS". -/
theorem claim_C2_las_raises_without_reference_witness :
    getAntsArgs extSimple inpLASNoRef = .error NormErr.notImplementedError :=
  claim_C2_las_raises_without_reference extSimple inpLASNoRef rfl rfl

/-! ### Lemmas about `sorted(set(...))` and `_unique`. -/

/-- A nonempty list all of whose elements equal `v` dedups to `[v]`. -/
theorem dedup_of_all_eq {V : Type} [DecidableEq V] (l : List V) (v : V)
    (hne : l ≠ []) (hall : ∀ w ∈ l, w = v) : l.dedup = [v] := by
  induction l with
  | nil => exact absurd rfl hne
  | cons a t ih =>
    have ha : a = v := hall a (List.mem_cons_self a t)
    cases t with
    | nil =>
      rw [List.dedup_cons_of_not_mem (List.not_mem_nil a), List.dedup_nil, ha]
    | cons b t2 =>
      have ht : (b :: t2).dedup = [v] :=
        ih (by simp) (fun w hw => hall w (List.mem_cons_of_mem a hw))
      have hb : b = v := hall b (by simp)
      have hmem : a ∈ b :: t2 := by
        rw [ha, ← hb]
        exact List.mem_cons_self b t2
      rw [List.dedup_cons_of_mem hmem, ht]

/-- `sortedDistinct l` is a permutation of the dedup of `l`. -/
theorem sortedDistinct_perm_dedup {V : Type} [LinearOrder V] [DecidableEq V]
    (l : List V) : List.Perm (sortedDistinct l) l.dedup :=
  List.perm_insertionSort (fun a b => a ≤ b) l.dedup

/-- Membership in `sortedDistinct l` is membership in `l`. -/
theorem mem_sortedDistinct {V : Type} [LinearOrder V] [DecidableEq V]
    (l : List V) (w : V) : w ∈ sortedDistinct l ↔ w ∈ l := by
  rw [(sortedDistinct_perm_dedup l).mem_iff, List.mem_dedup]

/-- `sortedDistinct l` has no duplicates. -/
theorem sortedDistinct_nodup {V : Type} [LinearOrder V] [DecidableEq V]
    (l : List V) : (sortedDistinct l).Nodup :=
  (sortedDistinct_perm_dedup l).nodup_iff.mpr (List.nodup_dedup l)

/-- `sortedDistinct l` is sorted in ascending order. -/
theorem sortedDistinct_sorted {V : Type} [LinearOrder V] [DecidableEq V]
    (l : List V) : List.Sorted (fun a b => a ≤ b) (sortedDistinct l) :=
  List.sorted_insertionSort (fun a b => a ≤ b) l.dedup

/-- `_unique` collapses a nonempty constant list to its single value. -/
theorem pyUnique_of_all_eq {V : Type} [LinearOrder V] [DecidableEq V]
    (l : List V) (v : V) (hne : l ≠ []) (hall : ∀ w ∈ l, w = v) :
    pyUnique l = Sum.inl v := by
  have hd : l.dedup = [v] := dedup_of_all_eq l v hne hall
  have hs : sortedDistinct l = [v] := by
    unfold sortedDistinct
    rw [hd]
    rfl
  simp [pyUnique, hs]

/-- `_unique` returns the sorted distinct list when at least two distinct
values are present. -/
theorem pyUnique_of_two_distinct {V : Type} [LinearOrder V] [DecidableEq V]
    (l : List V) (v₁ v₂ : V) (h1 : v₁ ∈ l) (h2 : v₂ ∈ l) (h12 : v₁ ≠ v₂) :
    pyUnique l = Sum.inr (sortedDistinct l) := by
  have hlen : (sortedDistinct l).length ≠ 1 := by
    intro hlen
    obtain ⟨a, ha⟩ := List.length_eq_one.mp hlen
    have m1 : v₁ ∈ sortedDistinct l := (mem_sortedDistinct l v₁).mpr h1
    have m2 : v₂ ∈ sortedDistinct l := (mem_sortedDistinct l v₂).mpr h2
    rw [ha] at m1 m2
    simp only [List.mem_singleton] at m1 m2
    exact h12 (m1.trans m2.symm)
  simp [pyUnique, hlen]

/-- C9: for every file list handed to `extract_entities`, an entity whose
parsed values all agree appears in the result as that single scalar value,
and an entity with at least two distinct values appears as the
duplicate-free ascending list of its distinct values. -/
theorem claim_C9_entities_scalar_or_sorted {F V : Type} [LinearOrder V]
    [DecidableEq V] (parse : F → List (String × V)) (files : List F)
    (k : String) :
    (∀ v, entityValues parse files k ≠ [] →
      (∀ w ∈ entityValues parse files k, w = v) →
      extract_entities parse files k = some (Sum.inl v)) ∧
    (∀ v₁ v₂, v₁ ∈ entityValues parse files k →
      v₂ ∈ entityValues parse files k → v₁ ≠ v₂ →
      extract_entities parse files k =
        some (Sum.inr (sortedDistinct (entityValues parse files k))) ∧
      List.Sorted (fun a b => a ≤ b)
        (sortedDistinct (entityValues parse files k)) ∧
      (sortedDistinct (entityValues parse files k)).Nodup ∧
      ∀ w, w ∈ sortedDistinct (entityValues parse files k) ↔
        w ∈ entityValues parse files k) := by
  constructor
  · intro v hne hall
    unfold extract_entities
    rw [if_neg hne, pyUnique_of_all_eq _ v hne hall]
  · intro v₁ v₂ h1 h2 h12
    have hne : entityValues parse files k ≠ [] := by
      intro h0
      rw [h0] at h1
      exact absurd h1 (List.not_mem_nil v₁)
    refine ⟨?_, sortedDistinct_sorted _, sortedDistinct_nodup _,
      fun w => mem_sortedDistinct _ w⟩
    unfold extract_entities
    rw [if_neg hne, pyUnique_of_two_distinct _ v₁ v₂ h1 h2 h12]

/-- Concrete instance of C9: two same-subject files with runs 1 and 2
collapse `subject` to the scalar `1` and `run` to the sorted list of its
distinct values. -/
theorem claim_C9_entities_scalar_or_sorted_witness :
    extract_entities parseTwoRuns filesTwoRuns "subject" = some (Sum.inl 1) ∧
    extract_entities parseTwoRuns filesTwoRuns "run" =
      some (Sum.inr (sortedDistinct (entityValues parseTwoRuns filesTwoRuns "run"))) :=
  ⟨(claim_C9_entities_scalar_or_sorted parseTwoRuns filesTwoRuns "subject").1 1
      (by decide) (by decide),
   ((claim_C9_entities_scalar_or_sorted parseTwoRuns filesTwoRuns "run").2 1 2
      (by decide) (by decide) (by decide)).1⟩

/-! ### Lemmas about the retry loop. -/

/-- One-step equation: a successful invocation ends the loop. -/
theorem robustGo_eq_ok {A : Type} (att : Nat → Except Nat A) (slp : Nat → Nat)
    (f : Nat) (a : A) (h : att f = .ok a) :
    robustGo att slp f = (.ok a, []) := by
  unfold robustGo
  simp only [h]

/-- One-step equation: the eleventh failure re-raises without sleeping. -/
theorem robustGo_eq_raise {A : Type} (att : Nat → Except Nat A)
    (slp : Nat → Nat) (f : Nat) (e : Nat) (h : att f = .error e)
    (h10 : f + 1 > 10) :
    robustGo att slp f = (.error e, []) := by
  unfold robustGo
  simp only [h]
  rw [dif_pos h10]

/-- One-step equation: an early failure sleeps and retries. -/
theorem robustGo_eq_retry {A : Type} (att : Nat → Except Nat A)
    (slp : Nat → Nat) (f : Nat) (e : Nat) (h : att f = .error e)
    (h10 : ¬f + 1 > 10) :
    robustGo att slp f =
      ((robustGo att slp (f + 1)).1,
       (f + 1, slp (f + 1)) :: (robustGo att slp (f + 1)).2) := by
  conv_lhs => unfold robustGo
  simp only [h]
  rw [dif_neg h10]

/-- Every sleep logged by the loop entered with `f` prior failures belongs
to a retry numbered between `f + 1` and `10` and equals the corresponding
jitter draw, and at most `10 - f` sleeps are performed. -/
theorem robustGo_log_bounds {A : Type} (att : Nat → Except Nat A)
    (slp : Nat → Nat) :
    ∀ n f, 10 - f ≤ n →
      (∀ p ∈ (robustGo att slp f).2,
        f + 1 ≤ p.1 ∧ p.1 ≤ 10 ∧ p.2 = slp p.1) ∧
      (robustGo att slp f).2.length ≤ 10 - f := by
  intro n
  induction n with
  | zero =>
    intro f hf
    cases hatt : att f with
    | ok a =>
      rw [robustGo_eq_ok att slp f a hatt]
      exact ⟨fun p hp => absurd hp (List.not_mem_nil p), by simp⟩
    | error e =>
      rw [robustGo_eq_raise att slp f e hatt (by omega)]
      exact ⟨fun p hp => absurd hp (List.not_mem_nil p), by simp⟩
  | succ m ih =>
    intro f hf
    cases hatt : att f with
    | ok a =>
      rw [robustGo_eq_ok att slp f a hatt]
      exact ⟨fun p hp => absurd hp (List.not_mem_nil p), by simp⟩
    | error e =>
      by_cases hgt : f + 1 > 10
      · rw [robustGo_eq_raise att slp f e hatt hgt]
        exact ⟨fun p hp => absurd hp (List.not_mem_nil p), by simp⟩
      · rw [robustGo_eq_retry att slp f e hatt hgt]
        have hrec := ih (f + 1) (by omega)
        constructor
        · intro p hp
          simp only [List.mem_cons] at hp
          cases hp with
          | inl hp =>
            subst hp
            exact ⟨le_refl _, by omega, rfl⟩
          | inr hp =>
            have hb := hrec.1 p hp
            exact ⟨by omega, hb.2.1, hb.2.2⟩
        · simp only [List.length_cons]
          omega

/-- When the first eleven invocations all fail, the loop entered with
`f ≤ 10` prior failures re-raises the error of invocation 10 after sleeping
once for each retry number from `f + 1` to `10`. -/
theorem robustGo_allfail {A : Type} (att : Nat → Except Nat A)
    (slp : Nat → Nat) (errs : Nat → Nat)
    (hfail : ∀ k, k ≤ 10 → att k = .error (errs k)) :
    ∀ n f, f ≤ 10 → 10 - f ≤ n →
      robustGo att slp f =
        (.error (errs 10),
         (List.range' (f + 1) (10 - f)).map (fun i => (i, slp i))) := by
  intro n
  induction n with
  | zero =>
    intro f hf10 hn
    have hf : f = 10 := by omega
    subst hf
    rw [robustGo_eq_raise att slp 10 (errs 10) (hfail 10 (le_refl 10)) (by omega)]
    rfl
  | succ m ih =>
    intro f hf10 hn
    by_cases hf : f = 10
    · subst hf
      rw [robustGo_eq_raise att slp 10 (errs 10) (hfail 10 (le_refl 10)) (by omega)]
      rfl
    · rw [robustGo_eq_retry att slp f (errs f) (hfail f (by omega)) (by omega)]
      rw [ih (f + 1) (by omega) (by omega)]
      have hlen : 10 - f = (10 - (f + 1)) + 1 := by omega
      rw [hlen, List.range'_succ]
      rfl

/-- C1 (amended): in every execution of the retry wrapper in which each
jitter draw obeys the `randint` contract, every sleep performed before
retry number `failures` is an integer number of seconds in the *closed*
interval `[start + 4, start + 10]` with `start = (failures - 1) * 10`, at
most 10 retries happen, and if all invocations fail the wrapper re-raises
the exception of the final invocation after exactly 10 retries. -/
theorem claim_C1_retry_policy {A : Type} (att : Nat → Except Nat A)
    (slp : Nat → Nat)
    (hslp : ∀ fl, randintCanReturn (sleepLow fl) (sleepHigh fl) (slp fl)) :
    (∀ p ∈ (robustRun att slp).2,
      1 ≤ p.1 ∧ p.1 ≤ 10 ∧ p.2 = slp p.1 ∧
      sleepLow p.1 ≤ p.2 ∧ p.2 ≤ sleepHigh p.1) ∧
    (robustRun att slp).2.length ≤ 10 ∧
    (∀ errs : Nat → Nat, (∀ k, k ≤ 10 → att k = .error (errs k)) →
      robustRun att slp =
        (.error (errs 10), (List.range' 1 10).map (fun i => (i, slp i)))) := by
  have hb := robustGo_log_bounds att slp 10 0 (by omega)
  refine ⟨?_, ?_, ?_⟩
  · intro p hp
    have h1 := hb.1 p hp
    have h2 := hslp p.1
    refine ⟨h1.1, h1.2.1, h1.2.2, ?_, ?_⟩
    · rw [h1.2.2]
      exact h2.1
    · rw [h1.2.2]
      exact h2.2
  · exact hb.2
  · intro errs hfail
    exact robustGo_allfail att slp errs hfail 10 0 (by omega) (by omega)

/-- Concrete instance of C1: with every invocation failing and each draw at
the lower endpoint of its interval, the wrapper re-raises the error of
invocation 10 after sleeping for retries 1 through 10. -/
theorem claim_C1_retry_policy_witness :
    robustRun attAllFail slpLowEnd =
      (.error 10, (List.range' 1 10).map (fun i => (i, slpLowEnd i))) :=
  (claim_C1_retry_policy attAllFail slpLowEnd
      (by
        intro fl
        unfold randintCanReturn sleepLow sleepHigh slpLowEnd
        omega)).2.2
    (fun k => k) (fun k _ => rfl)

/-- C1 (counterexample): `random.randint(start + 4, start + 10)` may return
`start + 10` itself — here, 10 for retry number 1 — and the wrapper then
sleeps a duration lying outside the half-open interval
`[start + 4, start + 10)` asserted by the claim. -/
theorem claim_C1_cex :
    randintCanReturn (sleepLow 1) (sleepHigh 1) 10 ∧
    (robustRun attFailOnce slpTopEnd).2 = [(1, 10)] ∧
    ¬(sleepLow 1 ≤ 10 ∧ 10 < sleepHigh 1) := by
  refine ⟨by decide, ?_, by decide⟩
  rw [robustRun,
    robustGo_eq_retry attFailOnce slpTopEnd 0 0 rfl (by omega),
    robustGo_eq_ok attFailOnce slpTopEnd 1 0 rfl]
  rfl
